import Mathlib

/-!
Verification of the AI-Debate-Partner frontend (DebateManager, DebateApp,
UIManager) against its natural-language specification.

JavaScript values that flow through the untyped parts of the code are
modelled by the inductive type JVal (undefined, null, booleans, numbers as
rationals, strings); JS truthiness and the logical-or defaulting idiom
`x || d` are modelled by truthy and jsOr. Fallible API calls are modelled
with Except. NaN is not modelled; numbers are exact rationals.
-/

namespace AIDebatePartner

/-- A JavaScript value as it appears in the dynamically typed fields of the
frontend code (response.confidence, response.reasoning, message, ...). -/
inductive JVal where
  | undef : JVal
  | jnull : JVal
  | jbool : Bool → JVal
  | num : ℚ → JVal
  | str : String → JVal
deriving DecidableEq, Repr

/-- JS truthiness for the modelled values: undefined, null, false, 0 and the
empty string are falsy, everything else is truthy. -/
def truthy : JVal → Bool
  | .undef => false
  | .jnull => false
  | .jbool b => b
  | .num q => if q = 0 then false else true
  | .str s => if s = "" then false else true

/-- The JS defaulting idiom a || b: keep a when truthy, else b. -/
def jsOr (a b : JVal) : JVal :=
  if truthy a then a else b

/-- Whether a JVal is a string (the typeof message check). -/
def isStr : JVal → Bool
  | .str _ => true
  | _ => false

/-- JS whitespace as used by String.prototype.trim, restricted to the ASCII
whitespace characters. -/
def isJsSpace (c : Char) : Bool :=
  c = ' ' || c = '\t' || c = '\n' || c = '\r' || c = '\x0b' || c = '\x0c'

/-- The message.trim() operation: strip leading and trailing whitespace. -/
def jsTrim (s : String) : String :=
  String.mk (((s.data.dropWhile isJsSpace).reverse.dropWhile isJsSpace).reverse)

/-! DebateManager.extractAgentInfo (src/unnamed/part_000 lines 196-221). -/

/-- One entry of the agentMap literal: display name, emoji, role line. -/
structure AgentEntry where
  name : String
  emoji : String
  role : String
deriving DecidableEq, Repr

/-- The moderator entry of the agentMap (the fallback for unknown names). -/
def moderatorEntry : AgentEntry :=
  ⟨"Moderator", "⚖️", "Managing debate structure"⟩

/-- The agentMap object literal of extractAgentInfo, in source order. -/
def agentMap : List (String × AgentEntry) :=
  [ ("controller", ⟨"Controller", "🎯", "Orchestrating debate flow"⟩)
  , ("moderator", moderatorEntry)
  , ("topic_generator", ⟨"Topic Generator", "💡", "Creating debate topics"⟩)
  , ("debater_for", ⟨"Advocate", "👍", "Supporting arguments"⟩)
  , ("debater_against", ⟨"Challenger", "👎", "Challenging arguments"⟩)
  , ("feedback", ⟨"Evaluator", "📊", "Providing feedback"⟩)
  , ("coach", ⟨"Coach", "🏆", "Offering strategic tips"⟩)
  , ("memory", ⟨"Memory", "🧠", "Managing context"⟩)
  ]

/-- A backend ai_response object as consumed by extractAgentInfo: the
agent_name field (absent or a string), the dynamically typed confidence and
reasoning fields, and the metadata object (a string-valued record, absent
or present). -/
structure AgentResponse where
  agent_name : Option String
  confidence : JVal
  reasoning : JVal
  metadata : Option (List (String × String))
deriving DecidableEq, Repr

/-- The object extractAgentInfo returns: six fields, always populated. -/
structure AgentInfo where
  name : String
  emoji : String
  role : String
  confidence : JVal
  reasoning : JVal
  metadata : List (String × String)
deriving DecidableEq, Repr

/-- DebateManager.extractAgentInfo: null for a falsy response (modelled as
none); otherwise resolve agent_name (defaulting falsy names to moderator and
unknown names to the moderator entry), pass confidence through with
`|| 0`, reasoning with `|| 'Processing...'`, metadata with `|| the empty
object`. -/
def extractAgentInfo : Option AgentResponse → Option AgentInfo
  | none => none
  | some r =>
    let agentName : String :=
      match r.agent_name with
      | some s => if s = "" then "moderator" else s
      | none => "moderator"
    let info := (agentMap.lookup agentName).getD moderatorEntry
    some
      { name := info.name
      , emoji := info.emoji
      , role := info.role
      , confidence := jsOr r.confidence (.num 0)
      , reasoning := jsOr r.reasoning (.str "Processing...")
      , metadata := r.metadata.getD [] }

/-! DebateManager.validateMessage (src/unnamed/part_000 lines 226-240). -/

/-- The result object of validateMessage: the valid flag and the optional
error message. -/
structure VResult where
  valid : Bool
  error : Option String
deriving DecidableEq, Repr

/-- DebateManager.validateMessage: a falsy or non-string message fails with
"Message is required" (the empty string is falsy, so it also lands here); a
whitespace-only message fails with "Message cannot be empty"; a message of
more than 2000 characters fails with the length error; otherwise valid. -/
def validateMessage : JVal → VResult
  | .str s =>
    if s = "" then ⟨false, some "Message is required"⟩
    else if (jsTrim s).length = 0 then ⟨false, some "Message cannot be empty"⟩
    else if s.length > 2000 then
      ⟨false, some "Message is too long (max 2000 characters)"⟩
    else ⟨true, none⟩
  | _ => ⟨false, some "Message is required"⟩

/-! DebateManager.formatPhase (src/unnamed/part_000 lines 180-191). -/

/-- The phaseMap literal of formatPhase: internal phase keys and their
display names, in source order. -/
def phaseMap : List (String × String) :=
  [ ("setup", "Setup")
  , ("opening", "Opening Arguments")
  , ("rebuttal", "Rebuttal Phase")
  , ("closing", "Closing Statements")
  , ("evaluation", "Evaluation")
  , ("complete", "Complete")
  ]

/-- DebateManager.formatPhase: look the phase up in phaseMap, falling back
to the raw phase string. -/
def formatPhase (phase : String) : String :=
  (phaseMap.lookup phase).getD phase

/-! UIManager.truncateText (src/frontend/js/ui.js lines 312-316). -/

/-- UIManager.truncateText: empty string for a falsy text (null or the empty
string), the text itself when it fits, else the first maxLength-3 characters
followed by an ellipsis. Nat subtraction matches the substring clamp of a
negative bound to 0. -/
def truncateText (text : Option String) (maxLength : Nat) : String :=
  match text with
  | none => ""
  | some t =>
    if t = "" then ""
    else if t.length ≤ maxLength then t
    else String.mk (t.data.take (maxLength - 3)) ++ "..."

/-! The fetch wrappers of DebateManager (startDebate, continueDebate,
endDebate, getSession, deleteSession; src/unnamed/part_000 lines 15-149).
Each one inspects response.ok, and on failure throws an Error carrying
error.detail when that is truthy, else the string HTTP followed by the
status code; on success it returns the parsed result. -/

/-- An HTTP response as the five wrappers see it: the ok flag, the numeric
status, the detail field of the error body (absent, or a string that may be
empty), and the parsed success result. -/
structure ApiResponse (α : Type) where
  ok : Bool
  status : Nat
  detail : Option String
  result : α

/-- The error message built by each wrapper: error.detail when truthy
(present and non-empty), otherwise the HTTP status fallback. -/
def errMessage (detail : Option String) (status : Nat) : String :=
  match detail with
  | some s => if s = "" then "HTTP " ++ toString status else s
  | none => "HTTP " ++ toString status

/-- The shared response handling of every DebateManager fetch wrapper:
throw (Except.error) with the detail-or-status message when the response is
not ok, return the result when it is. -/
def handleResponse {α : Type} (r : ApiResponse α) : Except String α :=
  if r.ok then .ok r.result else .error (errMessage r.detail r.status)

/-- DebateManager.startDebate, response handling part. -/
def startDebate {α : Type} (r : ApiResponse α) : Except String α :=
  handleResponse r

/-- DebateManager.continueDebate, response handling part. -/
def continueDebate {α : Type} (r : ApiResponse α) : Except String α :=
  handleResponse r

/-- DebateManager.endDebate, response handling part. -/
def endDebate {α : Type} (r : ApiResponse α) : Except String α :=
  handleResponse r

/-- DebateManager.getSession, response handling part. -/
def getSession {α : Type} (r : ApiResponse α) : Except String α :=
  handleResponse r

/-- DebateManager.deleteSession, response handling part. -/
def deleteSession {α : Type} (r : ApiResponse α) : Except String α :=
  handleResponse r

/-! The debate lifecycle phase machine. The backend component that owns and
advances the phase is not part of the frontend sources; only its display
side (formatPhase) is. The machine itself is therefore modelled from the
specification. -/

/-- The six lifecycle phases of a debate session. -/
inductive Phase where
  | setup : Phase
  | opening : Phase
  | rebuttal : Phase
  | closing : Phase
  | evaluation : Phase
  | complete : Phase
deriving DecidableEq, Repr

/-- Position of a phase along the linear lifecycle. -/
def phaseIdx : Phase → Nat
  | .setup => 0
  | .opening => 1
  | .rebuttal => 2
  | .closing => 3
  | .evaluation => 4
  | .complete => 5

/-- The serialized key of a phase, as it reaches formatPhase. -/
def phaseKey : Phase → String
  | .setup => "setup"
  | .opening => "opening"
  | .rebuttal => "rebuttal"
  | .closing => "closing"
  | .evaluation => "evaluation"
  | .complete => "complete"

/-- The phase-relevant part of a session: current phase and round count. -/
structure SessionState where
  phase : Phase
  current_round : Nat
deriving DecidableEq, Repr

/-- The operations that can touch the phase machine: creating the session,
completing a user-assistant exchange, an explicit end action, and the
finalization after the evaluation report is produced. -/
inductive SessionAction where
  | create : SessionAction
  | exchange : SessionAction
  | endAction : SessionAction
  | finishEvaluation : SessionAction
deriving DecidableEq, Repr

/-- Modelled from the spec: the PhaseStateMachine of section 4.2, whose code
is not among the frontend sources. setup advances to opening on creation;
an exchange in an active phase increments the round and advances
opening to rebuttal once the round count reaches 1 and rebuttal to closing
once it reaches minRounds; an end action from any non-terminal phase
force-advances directly to evaluation; evaluation advances to complete when
the report is done; every rejected action fails with PhaseViolation and (per
the run function below) leaves the state unchanged. -/
def phaseStep (minRounds : Nat) (a : SessionAction) (s : SessionState) :
    Except String SessionState :=
  match a with
  | .create =>
    match s.phase with
    | .setup => .ok { s with phase := .opening }
    | _ => .error "PhaseViolation"
  | .exchange =>
    match s.phase with
    | .opening =>
      let r := s.current_round + 1
      .ok { phase := if r ≥ 1 then .rebuttal else .opening, current_round := r }
    | .rebuttal =>
      let r := s.current_round + 1
      .ok { phase := if r ≥ minRounds then .closing else .rebuttal, current_round := r }
    | .closing => .ok { s with current_round := s.current_round + 1 }
    | _ => .error "PhaseViolation"
  | .endAction =>
    match s.phase with
    | .complete => .error "PhaseViolation"
    | _ => .ok { s with phase := .evaluation }
  | .finishEvaluation =>
    match s.phase with
    | .evaluation => .ok { s with phase := .complete }
    | _ => .error "PhaseViolation"

/-- Run a sequence of actions from a state; a rejected action leaves the
state unchanged, as the spec requires of every PhaseViolation. -/
def runActions (minRounds : Nat) : List SessionAction → SessionState → SessionState
  | [], s => s
  | a :: rest, s =>
    runActions minRounds rest
      (match phaseStep minRounds a s with
       | .ok s' => s'
       | .error _ => s)

/-! Helper lemmas shared by the claim theorems. -/

/-- The length of a string built from an explicit character list. -/
lemma length_mk (l : List Char) : (String.mk l).length = l.length :=
  rfl

/-- A string built from a non-empty replicate list is not the empty string. -/
lemma mk_replicate_ne_empty (c : Char) (n : Nat) (hn : 0 < n) :
    String.mk (List.replicate n c) ≠ "" := by
  intro h
  have h2 := congrArg String.length h
  rw [length_mk, List.length_replicate] at h2
  have h3 : ("" : String).length = 0 := rfl
  rw [h3] at h2
  omega

/-- Dropping JS whitespace from an all-space list empties it. -/
lemma dropWhile_replicate_space (n : Nat) :
    List.dropWhile isJsSpace (List.replicate n ' ') = [] := by
  induction n with
  | zero => rfl
  | succ n ih => simp [List.replicate_succ, List.dropWhile, isJsSpace, ih]

/-- Trimming an all-space string yields the empty string. -/
lemma jsTrim_replicate_space (n : Nat) :
    jsTrim (String.mk (List.replicate n ' ')) = "" := by
  unfold jsTrim
  rw [show (String.mk (List.replicate n ' ')).data = List.replicate n ' ' from rfl]
  rw [dropWhile_replicate_space]
  rfl

/-- Dropping JS whitespace from an all-letter list keeps it intact. -/
lemma dropWhile_replicate_a (n : Nat) :
    List.dropWhile isJsSpace (List.replicate n 'a') = List.replicate n 'a' := by
  cases n with
  | zero => rfl
  | succ n => simp [List.replicate_succ, List.dropWhile, isJsSpace]

/-- Trimming an all-letter string is the identity. -/
lemma jsTrim_replicate_a (n : Nat) :
    jsTrim (String.mk (List.replicate n 'a')) = String.mk (List.replicate n 'a') := by
  unfold jsTrim
  rw [show (String.mk (List.replicate n 'a')).data = List.replicate n 'a' from rfl]
  rw [dropWhile_replicate_a, List.reverse_replicate, dropWhile_replicate_a,
    List.reverse_replicate]

/-- A string equals the empty string exactly when its character list is
empty. -/
lemma mk_eq_empty_iff (l : List Char) : String.mk l = "" ↔ l = [] := by
  constructor
  · intro h
    exact congrArg String.data h
  · intro h
    rw [h]

/-- A string has length zero exactly when it is the empty string. -/
lemma string_length_zero_iff (s : String) : s.length = 0 ↔ s = "" := by
  cases s with
  | mk l => rw [length_mk, List.length_eq_zero, mk_eq_empty_iff]

/-- Trimming the empty string yields the empty string. -/
lemma jsTrim_empty : jsTrim "" = "" := rfl

/-- A value found by lookup in an association list is among its values. -/
lemma lookup_mem_values {α β : Type} [BEq α] (l : List (α × β)) (k : α) (e : β)
    (h : l.lookup k = some e) : e ∈ l.map Prod.snd := by
  induction l with
  | nil => simp [List.lookup] at h
  | cons p rest ih =>
    rw [List.lookup] at h
    cases hk : (k == p.fst) with
    | true =>
      rw [hk] at h
      cases h
      simp
    | false =>
      rw [hk] at h
      exact List.mem_cons_of_mem _ (ih h)

/-- A single phase step never moves the phase to an earlier position. -/
lemma phaseStep_mono (m : Nat) (a : SessionAction) (s s' : SessionState)
    (h : phaseStep m a s = .ok s') : phaseIdx s.phase ≤ phaseIdx s'.phase := by
  rcases s with ⟨p, r⟩
  cases a <;> cases p <;>
    simp only [phaseStep] at h <;>
    (try split at h) <;>
    (try cases h) <;>
    simp [phaseIdx]

/-- Running any action sequence never moves the phase to an earlier
position. -/
lemma runActions_mono (m : Nat) (acts : List SessionAction) (s : SessionState) :
    phaseIdx s.phase ≤ phaseIdx (runActions m acts s).phase := by
  induction acts generalizing s with
  | nil => simp [runActions]
  | cons a rest ih =>
    simp only [runActions]
    cases h : phaseStep m a s with
    | ok s' => exact le_trans (phaseStep_mono m a s s' h) (ih s')
    | error e => exact ih s

/-! Claim theorems. -/

/-- C1: for every session, the phase only ever moves forward along the
linear sequence setup, opening, rebuttal, closing, evaluation, complete;
an end action either jumps directly to evaluation or is rejected (only from
the terminal phase); and the phase vocabulary of the frontend phaseMap is
exactly these six values. The phase machine itself is modelled from the
spec, as its code is not among the frontend sources; formatPhase ties the
six values to the code. -/
theorem C1_phase_forward_only :
    (∀ (m : Nat) (acts : List SessionAction) (s : SessionState),
       phaseIdx s.phase ≤ phaseIdx (runActions m acts s).phase)
    ∧ (∀ (m : Nat) (s : SessionState),
       phaseStep m .endAction s = .ok { s with phase := .evaluation }
         ∨ phaseStep m .endAction s = .error "PhaseViolation")
    ∧ phaseMap.map Prod.fst
        = [phaseKey .setup, phaseKey .opening, phaseKey .rebuttal, phaseKey .closing,
           phaseKey .evaluation, phaseKey .complete] := by
  refine ⟨runActions_mono, ?_, by decide⟩
  intro m s
  rcases s with ⟨p, r⟩
  cases p <;> simp [phaseStep]

/-- C2, counterexample: on a model reply with an absent confidence field the
code stores confidence 0, not 0.5, and adds no metadata.warning flag; the
claim as stated is false at this input. -/
theorem C2_counterexample :
    (extractAgentInfo
        (some { agent_name := none, confidence := .undef, reasoning := .undef
              , metadata := none })).map AgentInfo.confidence = some (.num 0)
    ∧ JVal.num 0 ≠ JVal.num (1 / 2)
    ∧ (extractAgentInfo
        (some { agent_name := none, confidence := .undef, reasoning := .undef
              , metadata := none })).map
        (fun i => i.metadata.lookup "warning") = some none := by
  refine ⟨rfl, ?_, rfl⟩
  intro h
  injection h with h'
  norm_num at h'

/-- C2, amended: for every model reply whose confidence field is falsy
(absent, null, 0 or empty), extractAgentInfo never hard-fails and the
displayed info carries confidence exactly 0 with the metadata passed through
unchanged (defaulting to the empty record), with no warning flag added. -/
theorem C2_confidence_defaulted_to_zero (r : AgentResponse)
    (h : truthy r.confidence = false) :
    ∃ info, extractAgentInfo (some r) = some info
      ∧ info.confidence = .num 0
      ∧ info.metadata = r.metadata.getD [] := by
  refine ⟨_, rfl, ?_, rfl⟩
  simp [jsOr, h]

/-- C2, witness for the amended theorem at a concrete reply. -/
theorem C2_confidence_defaulted_to_zero_witness :
    ∃ info,
      extractAgentInfo
          (some { agent_name := some "coach", confidence := .undef
                , reasoning := .str "tips", metadata := some [("k", "v")] })
        = some info
      ∧ info.confidence = .num 0
      ∧ info.metadata = [("k", "v")] :=
  C2_confidence_defaulted_to_zero
    { agent_name := some "coach", confidence := .undef
    , reasoning := .str "tips", metadata := some [("k", "v")] } rfl

/-- Whether a JVal is a numeric confidence within the closed unit
interval. -/
def confInUnit (v : JVal) : Prop :=
  ∃ q : ℚ, v = .num q ∧ 0 ≤ q ∧ q ≤ 1

/-- C3, counterexample: a reply with the out-of-range confidence 2 is
displayed with confidence 2, outside the unit interval — the frontend never
clamps, so the claim as stated is false at this input. -/
theorem C3_counterexample :
    ∃ info,
      extractAgentInfo
          (some { agent_name := some "debater_for", confidence := .num 2
                , reasoning := .str "because", metadata := none })
        = some info
      ∧ info.confidence = .num 2
      ∧ ¬ confInUnit info.confidence := by
  refine ⟨_, rfl, ?_, ?_⟩
  · show jsOr (.num 2) (.num 0) = .num 2
    simp only [jsOr, truthy]
    norm_num
  · show ¬ confInUnit (jsOr (.num 2) (.num 0))
    have h2 : jsOr (JVal.num 2) (.num 0) = .num 2 := by
      simp only [jsOr, truthy]
      norm_num
    rw [h2]
    rintro ⟨q, hq, h0, h1⟩
    injection hq with h'
    rw [← h'] at h1
    norm_num at h1

/-- C3, amended: the displayed confidence lies in the unit interval whenever
the reply confidence is falsy (defaulted to 0) or a number already in the
unit interval; the frontend passes confidence through without clamping. -/
theorem C3_confidence_in_unit_when_input_is (r : AgentResponse)
    (h : truthy r.confidence = false
      ∨ ∃ q : ℚ, r.confidence = .num q ∧ 0 ≤ q ∧ q ≤ 1) :
    ∃ info, extractAgentInfo (some r) = some info ∧ confInUnit info.confidence := by
  refine ⟨_, rfl, ?_⟩
  show confInUnit (jsOr r.confidence (.num 0))
  rcases h with h | ⟨q, hq, h0, h1⟩
  · rw [jsOr, h]
    exact ⟨0, rfl, le_refl 0, by norm_num⟩
  · rw [hq]
    rw [jsOr]
    split
    · exact ⟨q, rfl, h0, h1⟩
    · exact ⟨0, rfl, le_refl 0, by norm_num⟩

/-- C3, witness for the amended theorem at a concrete reply. -/
theorem C3_confidence_in_unit_witness :
    ∃ info,
      extractAgentInfo
          (some { agent_name := some "debater_against", confidence := .num 1
                , reasoning := .undef, metadata := none })
        = some info
      ∧ confInUnit info.confidence :=
  C3_confidence_in_unit_when_input_is
    { agent_name := some "debater_against", confidence := .num 1
    , reasoning := .undef, metadata := none }
    (Or.inr ⟨1, rfl, by norm_num, le_refl 1⟩)

/-- The five-persona vocabulary stated by the spec (RoleSelector, section
4.3), written out for comparison with the vocabulary in the code. -/
def specPersonas : List String :=
  ["moderator", "debater_for", "debater_against", "coach", "feedback_evaluator"]

/-- The persona names the frontend recognizes as acting agents: the keys of
the agentMap of extractAgentInfo. -/
def recognizedPersonas : List String :=
  agentMap.map Prod.fst

/-- C4, counterexample: the code recognizes topic_generator as a distinct
acting persona outside the five-element spec set (displaying it as Topic
Generator, not as the Moderator fallback), while the spec name
feedback_evaluator is not recognized at all — so the persona vocabulary is
not the claimed five-element set. -/
theorem C4_counterexample :
    ("topic_generator" ∈ recognizedPersonas
      ∧ "topic_generator" ∉ specPersonas
      ∧ (extractAgentInfo
          (some { agent_name := some "topic_generator", confidence := .undef
                , reasoning := .undef, metadata := none })).map AgentInfo.name
          = some "Topic Generator"
      ∧ "Topic Generator" ≠ moderatorEntry.name)
    ∧ ("feedback_evaluator" ∈ specPersonas
      ∧ "feedback_evaluator" ∉ recognizedPersonas) := by
  exact ⟨⟨by decide, by decide, rfl, by decide⟩, by decide, by decide⟩

/-- C4, amended: every turn displayed by the frontend is attributed to one
of the eight personas of the agentMap (controller, moderator,
topic_generator, debater_for, debater_against, feedback, coach, memory),
with any unrecognized name shown as the moderator entry. -/
theorem C4_personas_among_eight (x : Option AgentResponse) (info : AgentInfo)
    (h : extractAgentInfo x = some info) :
    (⟨info.name, info.emoji, info.role⟩ : AgentEntry) ∈ agentMap.map Prod.snd := by
  cases x with
  | none => cases h
  | some r =>
    simp only [extractAgentInfo] at h
    cases h
    cases hl : agentMap.lookup (match r.agent_name with
      | some s => if s = "" then "moderator" else s
      | none => "moderator") with
    | some e =>
      exact lookup_mem_values _ _ _ hl
    | none =>
      exact (by decide : moderatorEntry ∈ agentMap.map Prod.snd)

/-- C4, witness for the amended theorem at a concrete reply. -/
theorem C4_personas_among_eight_witness :
    (⟨"Topic Generator", "💡", "Creating debate topics"⟩ : AgentEntry)
      ∈ agentMap.map Prod.snd :=
  C4_personas_among_eight
    (some { agent_name := some "topic_generator", confidence := .undef
          , reasoning := .undef, metadata := none })
    { name := "Topic Generator", emoji := "💡", role := "Creating debate topics"
    , confidence := .num 0, reasoning := .str "Processing...", metadata := [] }
    rfl

/-- C5: every message that is missing (undefined/null), not a string, or a
string whose trimmed form is empty fails validation with valid = false and a
non-empty error message. validateMessage is a pure predicate on the message
alone, so a failed validation performs no request and touches no session
state. -/
theorem C5_invalid_message_rejected (v : JVal)
    (h : isStr v = false ∨ ∃ s, v = .str s ∧ jsTrim s = "") :
    (validateMessage v).valid = false
      ∧ ∃ msg, (validateMessage v).error = some msg ∧ msg ≠ "" := by
  rcases h with h | ⟨s, rfl, hs⟩
  · cases v with
    | str s => simp [isStr] at h
    | undef => exact ⟨rfl, "Message is required", rfl, by decide⟩
    | jnull => exact ⟨rfl, "Message is required", rfl, by decide⟩
    | jbool b => exact ⟨rfl, "Message is required", rfl, by decide⟩
    | num q => exact ⟨rfl, "Message is required", rfl, by decide⟩
  · by_cases he : s = ""
    · subst he
      exact ⟨rfl, "Message is required", rfl, by decide⟩
    · have hv : validateMessage (.str s) = ⟨false, some "Message cannot be empty"⟩ := by
        simp only [validateMessage]
        rw [if_neg he, hs]
        rfl
      rw [hv]
      exact ⟨rfl, "Message cannot be empty", rfl, by decide⟩

/-- C5, witness at the missing message. -/
theorem C5_invalid_message_rejected_witness :
    (validateMessage .undef).valid = false
      ∧ ∃ msg, (validateMessage .undef).error = some msg ∧ msg ≠ "" :=
  C5_invalid_message_rejected .undef (Or.inl rfl)

/-- C6, counterexample: on a reply with an absent reasoning field the code
sets reasoning to the placeholder Processing..., not to the empty string, so
the claim as stated is false at this input. -/
theorem C6_counterexample :
    ∃ info,
      extractAgentInfo
          (some { agent_name := some "debater_for", confidence := .str "high"
                , reasoning := .undef, metadata := none })
        = some info
      ∧ info.reasoning = .str "Processing..."
      ∧ JVal.str "Processing..." ≠ .str "" := by
  exact ⟨_, rfl, rfl, by decide⟩

/-- C6, amended: for every reply whose reasoning field is falsy (absent,
null or empty), processing continues normally and the resulting info carries
the placeholder reasoning Processing... instead of the empty string. -/
theorem C6_reasoning_defaults_to_placeholder (r : AgentResponse)
    (h : truthy r.reasoning = false) :
    ∃ info, extractAgentInfo (some r) = some info
      ∧ info.reasoning = .str "Processing..." := by
  refine ⟨_, rfl, ?_⟩
  show jsOr r.reasoning (.str "Processing...") = .str "Processing..."
  simp [jsOr, h]

/-- C6, witness for the amended theorem at a concrete reply. -/
theorem C6_reasoning_defaults_witness :
    ∃ info,
      extractAgentInfo
          (some { agent_name := none, confidence := .num 1
                , reasoning := .jnull, metadata := none })
        = some info
      ∧ info.reasoning = .str "Processing..." :=
  C6_reasoning_defaults_to_placeholder
    { agent_name := none, confidence := .num 1
    , reasoning := .jnull, metadata := none } rfl

/-- C7: each of the five client operations (start, continue, end, get_state,
delete) shares the same response handling; it returns the parsed result
exactly when the response is ok, and otherwise raises an error whose message
is the detail field when that is present and non-empty, else the HTTP status
fallback — never a partial result. -/
theorem C7_error_exactly_on_not_ok :
    ∀ (α : Type) (r : ApiResponse α),
      (startDebate r = handleResponse r ∧ continueDebate r = handleResponse r
        ∧ endDebate r = handleResponse r ∧ getSession r = handleResponse r
        ∧ deleteSession r = handleResponse r)
      ∧ ((r.ok = true ∧ handleResponse r = .ok r.result)
          ∨ (r.ok = false ∧ handleResponse r = .error (errMessage r.detail r.status)))
      ∧ (∀ s : String, errMessage (some s) r.status
            = if s = "" then "HTTP " ++ toString r.status else s)
      ∧ errMessage none r.status = "HTTP " ++ toString r.status := by
  intro α r
  refine ⟨⟨rfl, rfl, rfl, rfl, rfl⟩, ?_, fun s => rfl, rfl⟩
  cases hok : r.ok with
  | true => exact Or.inl ⟨rfl, by simp [handleResponse, hok]⟩
  | false => exact Or.inr ⟨rfl, by simp [handleResponse, hok]⟩

/-- C8, counterexample: a 2001-character whitespace-only string is longer
than 2000 characters, yet it is rejected with the message Message cannot be
empty, not with the too-long message the claim asserts for every string
longer than 2000 characters. -/
theorem C8_counterexample :
    (String.mk (List.replicate 2001 ' ')).length > 2000
    ∧ validateMessage (.str (String.mk (List.replicate 2001 ' ')))
        = ⟨false, some "Message cannot be empty"⟩
    ∧ "Message cannot be empty" ≠ "Message is too long (max 2000 characters)" := by
  refine ⟨?_, ?_, by decide⟩
  · rw [length_mk, List.length_replicate]
    norm_num
  · have hne := mk_replicate_ne_empty ' ' 2001 (by norm_num)
    simp only [validateMessage]
    rw [if_neg hne, jsTrim_replicate_space]
    rfl

/-- C8, amended: validateMessage accepts exactly the strings whose trimmed
form is non-empty and whose length is at most 2000; a string longer than
2000 characters whose trimmed form is non-empty is rejected with the
too-long message (a longer whitespace-only string is rejected earlier with
Message cannot be empty). -/
theorem C8_accepts_iff :
    (∀ v : JVal, (validateMessage v).valid = true
        ↔ ∃ s, v = .str s ∧ jsTrim s ≠ "" ∧ s.length ≤ 2000)
    ∧ (∀ s : String, jsTrim s ≠ "" → s.length > 2000 →
        (validateMessage (.str s)).error
          = some "Message is too long (max 2000 characters)") := by
  constructor
  · intro v
    constructor
    · intro h
      cases v with
      | str s =>
        simp only [validateMessage] at h
        split_ifs at h with h1 h2 h3
        exact ⟨s, rfl, fun hc => h2 (by rw [hc]; rfl), le_of_not_lt h3⟩
      | undef => simp [validateMessage] at h
      | jnull => simp [validateMessage] at h
      | jbool b => simp [validateMessage] at h
      | num q => simp [validateMessage] at h
    · rintro ⟨s, rfl, ht, hl⟩
      have h1 : s ≠ "" := fun hc => ht (by rw [hc]; exact jsTrim_empty)
      have h2 : ¬ ((jsTrim s).length = 0) :=
        fun hc => ht ((string_length_zero_iff _).mp hc)
      simp only [validateMessage]
      rw [if_neg h1, if_neg h2, if_neg (by omega : ¬ (s.length > 2000))]
  · intro s ht hl
    have h1 : s ≠ "" := fun hc => ht (by rw [hc]; exact jsTrim_empty)
    have h2 : ¬ ((jsTrim s).length = 0) :=
      fun hc => ht ((string_length_zero_iff _).mp hc)
    simp only [validateMessage]
    rw [if_neg h1, if_neg h2, if_pos hl]

/-- C8, witness: a short message is accepted, and a long non-whitespace
message draws the too-long error. -/
theorem C8_accepts_iff_witness :
    (validateMessage (.str "hi")).valid = true
    ∧ (validateMessage (.str (String.mk (List.replicate 2001 'a')))).error
        = some "Message is too long (max 2000 characters)" := by
  constructor
  · exact (C8_accepts_iff.1 (.str "hi")).mpr ⟨"hi", rfl, by decide, by decide⟩
  · refine C8_accepts_iff.2 (String.mk (List.replicate 2001 'a')) ?_ ?_
    · rw [jsTrim_replicate_a]
      exact mk_replicate_ne_empty 'a' 2001 (by norm_num)
    · rw [length_mk, List.length_replicate]
      norm_num

/-- C9: extractAgentInfo is total — it returns null exactly when the
response is falsy (none), for every actual response it returns an info
object (whose record type carries all six fields), and any agent_name
outside the agentMap keys is mapped to the moderator defaults. -/
theorem C9_extract_total :
    (∀ x : Option AgentResponse, extractAgentInfo x = none ↔ x = none)
    ∧ (∀ r : AgentResponse, ∃ info, extractAgentInfo (some r) = some info)
    ∧ (∀ (r : AgentResponse) (s : String), r.agent_name = some s →
        agentMap.lookup s = none →
        ∃ info, extractAgentInfo (some r) = some info
          ∧ info.name = moderatorEntry.name ∧ info.emoji = moderatorEntry.emoji
          ∧ info.role = moderatorEntry.role) := by
  refine ⟨?_, ?_, ?_⟩
  · intro x
    cases x with
    | none => simp [extractAgentInfo]
    | some r => simp [extractAgentInfo]
  · intro r
    exact ⟨_, rfl⟩
  · intro r s hs hlook
    have key : (agentMap.lookup (match r.agent_name with
        | some s => if s = "" then "moderator" else s
        | none => "moderator")).getD moderatorEntry = moderatorEntry := by
      rw [hs]
      show (agentMap.lookup (if s = "" then "moderator" else s)).getD moderatorEntry
        = moderatorEntry
      by_cases he : s = ""
      · rw [if_pos he]
        rfl
      · rw [if_neg he, hlook]
        rfl
    exact ⟨_, rfl, congrArg AgentEntry.name key, congrArg AgentEntry.emoji key,
      congrArg AgentEntry.role key⟩

/-- C9, witness at a falsy response and at an unknown agent name. -/
theorem C9_extract_total_witness :
    (extractAgentInfo none = none ↔ (none : Option AgentResponse) = none)
    ∧ ∃ info,
        extractAgentInfo
            (some { agent_name := some "wizard", confidence := .undef
                  , reasoning := .undef, metadata := none })
          = some info
        ∧ info.name = moderatorEntry.name ∧ info.emoji = moderatorEntry.emoji
        ∧ info.role = moderatorEntry.role :=
  ⟨C9_extract_total.1 none,
   C9_extract_total.2.2 _ "wizard" rfl (by decide)⟩

/-- The length of a concatenation of strings adds the lengths. -/
lemma string_append_length (a b : String) : (a ++ b).length = a.length + b.length := by
  cases a with
  | mk l =>
    cases b with
    | mk l2 =>
      rw [show String.mk l ++ String.mk l2 = String.mk (l ++ l2) from rfl]
      rw [length_mk, length_mk, length_mk, List.length_append]

/-- C10: for every text and every maxLength of at least 3, truncateText
returns a string of length at most maxLength, returns the text unchanged
when it already fits, and returns the empty string for a null or empty
input. -/
theorem C10_truncate_bounds (t : Option String) (m : Nat) (h : 3 ≤ m) :
    (truncateText t m).length ≤ m
    ∧ (∀ s, t = some s → s.length ≤ m → truncateText t m = s)
    ∧ truncateText none m = ""
    ∧ truncateText (some "") m = "" := by
  refine ⟨?_, ?_, rfl, rfl⟩
  · cases t with
    | none => exact Nat.zero_le m
    | some s =>
      by_cases he : s = ""
      · subst he
        exact Nat.zero_le m
      · simp only [truncateText]
        rw [if_neg he]
        by_cases hle : s.length ≤ m
        · rw [if_pos hle]
          exact hle
        · rw [if_neg hle]
          rw [string_append_length, length_mk, List.length_take]
          have h3 : ("..." : String).length = 3 := rfl
          have hds : s.data.length = s.length := rfl
          have hlt := Nat.lt_of_not_le hle
          rw [h3, hds]
          omega
  · intro s hs hls
    rw [hs]
    simp only [truncateText]
    by_cases he : s = ""
    · rw [if_pos he]
      exact he.symm
    · rw [if_neg he, if_pos hls]

/-- C10, witness at a concrete text and bound. -/
theorem C10_truncate_bounds_witness :
    (truncateText (some "abcdefgh") 5).length ≤ 5
    ∧ (∀ s, some "abcdefgh" = some s → s.length ≤ 5 →
        truncateText (some "abcdefgh") 5 = s)
    ∧ truncateText none 5 = ""
    ∧ truncateText (some "") 5 = "" :=
  C10_truncate_bounds (some "abcdefgh") 5 (by norm_num)

end AIDebatePartner
